import Mathlib

/-!
Shallow embedding of the `ssl_exporter` collector (the Go package
`ssl_exporter`: `labelOrder`, `descs`, `Exporter`, `Options`,
`NewSSLExporter`, `Describe`, `Collect`), together with theorems checking
the natural-language specification of the collector against this embedding.

Modelling conventions:
- Go strings are Lean `String`s; `float64` metric values are carried as
  `Int` (the collector never computes with a value, it only copies it from
  the gathered raw metric into the canonical one).
- The `prometheus` registry machinery is modelled functionally: a registry
  is identified by an allocation stamp (so that overwriting
  `options.Registry` with `prometheus.NewRegistry()` is observable) and
  carries the metric families the probing strategy registered into it.
  `Registry.Gather` is modelled as returning the families of the two
  collector-level gauges (probe success, prober identity) followed by the
  strategy's families; the gathered prober-identity family has one child
  per distinct prober label value ever passed to `WithLabelValues`, each
  with value 1, exactly as a `prometheus.GaugeVec` accumulates children.
  Two deliberate simplifications, stated where they matter: the real
  `Gather` sorts families by name and a family's metrics by label values
  (the model keeps registration/creation order), and the real `Gather`
  can fail, in which case the source (lines 227-231) logs the error and
  skips the resolved target's entire output with `continue` (the model
  has no gather-error path).  Theorems whose truth could depend on the
  gather order or on gather failure carry hypotheses (gauge-only strategy
  output, so no family can panic and every family is fully remapped in
  any order) or order-insensitive conclusions (set membership,
  permutations, filters with a single match), and their claims are scoped
  to a successful gather.
- `prober.Probers` (an external package) and the probing strategies are
  black boxes: they are parameters of `Collect`.  A probing strategy is a
  function from (target address, module) to (optional error, registered
  raw metric families); determinism of the stub is therefore built in.
- A Go `panic` (the collector dereferences `m.Gauge.Value`, which is `nil`
  for a raw metric that is not a gauge) is modelled by the `panicked` flag
  of `CollectResult`: once set, no further metric is emitted.
- `sort.Slice` is embedded with the semantics of Go 1.18 (the toolchain
  pinned by this repository's CI): for a slice of at most 12 elements the
  algorithm performs one Shell-sort pass with gap 6 followed by an
  insertion sort.  `goSortSlice` below is that algorithm; it is exact for
  inputs of length at most 12, and every descriptor in `descs` has at most
  10 labels, so every emitted canonical metric falls in the exact regime.
-/

namespace SSLExporter

/-- `dto.LabelPair`: one name/value label pair of a gathered raw metric. -/
structure LabelPair where
  Name : String
  Value : String
deriving DecidableEq, Repr

/-- `dto.Metric` as the collector reads it: the label pairs and the gauge
value; `Gauge = none` models a gathered metric whose `Gauge` field is a
nil pointer (i.e. a raw metric that is not a gauge). -/
structure RawMetric where
  Label : List LabelPair
  Gauge : Option Int
deriving DecidableEq, Repr

/-- `dto.MetricFamily` as the collector reads it: a name and its metrics. -/
structure RawFamily where
  Name : String
  Metric : List RawMetric
deriving DecidableEq, Repr

/-- `prometheus.Desc` as used here: the fully-qualified metric name, the
help string and the ordered variable label names. -/
structure Desc where
  fqName : String
  help : String
  variableLabels : List String
deriving DecidableEq, Repr

/-- A canonical metric produced by `prometheus.NewConstMetric(desc,
prometheus.GaugeValue, value, labelValues...)` and sent on the `Collect`
channel: the descriptor's name, the ordered label values and the value. -/
structure CanonMetric where
  descName : String
  labelValues : List String
  value : Int
deriving DecidableEq, Repr

/-- `config.Module`: the collector only reads the `Prober` field. -/
structure Module where
  Prober : String
deriving DecidableEq, Repr

/-- `SSLTarget`: address and requested module name (possibly empty). -/
structure SSLTarget where
  Target : String
  Module : String
deriving DecidableEq, Repr

/-- `config.Config` as read by the collector: the default module name and
the module table. -/
structure SSLConfig where
  DefaultModule : String
  Modules : List (String × Module)
deriving DecidableEq, Repr

/-- A `prometheus.Registry` object: an allocation stamp giving it identity
plus the raw families the probing strategy registered into it. -/
structure Registry where
  stamp : Nat
  strategyFams : List RawFamily
deriving DecidableEq, Repr

/-- `Options` of the exporter.  All fields the Go struct has; `log` is
omitted (logging is modelled by the diagnostics of `CollectResult`). -/
structure Options where
  Namespace : String
  MetricsPath : String
  ProbePath : String
  Registry : Registry
  SSLTargets : List SSLTarget
  SSLConfig : SSLConfig
deriving DecidableEq, Repr

/-- The mutable state of an `Exporter`:
- `probeSuccessVal` is the current value of the shared `probeSuccess` gauge;
- `proberChildren` are the child label values of the shared `proberType`
  gauge vector, in creation order (each child's value is always 1, since
  the collector only ever calls `.Set(1)` on them);
- `options` as in the Go struct (its `Registry` field is overwritten by
  `Collect`);
- `nextStamp` is a ghost allocation counter: each `prometheus.NewRegistry()`
  call yields a registry with a fresh stamp. -/
structure Exporter where
  probeSuccessVal : Int
  proberChildren : List String
  options : Options
  nextStamp : Nat
deriving DecidableEq, Repr

/-- A probing strategy: from target address and module to the optional
error it returns and the raw families it registered into the registry. -/
def ProberFn : Type := String → Module → (Option String × List RawFamily)

/-- The external `prober.Probers` table, a black box to this package. -/
def Probers : Type := String → Option ProberFn

/-- One diagnostic written to the logging side channel, mirroring the
`level.Error(logger).Log` calls of `Collect`. -/
inductive Diag where
  | missingModule
  | unknownModule (name : String)
  | unknownProber (name : String)
  | proberError (msg : String)
  | unknownMetric (name : String)
  | constructError
deriving DecidableEq, Repr

/-- `prometheus.BuildFQName`. -/
def BuildFQName (ns sub name : String) : String :=
  if name = "" then ""
  else if ns ≠ "" ∧ sub ≠ "" then ns ++ "_" ++ sub ++ "_" ++ name
  else if ns ≠ "" then ns ++ "_" ++ name
  else if sub ≠ "" then sub ++ "_" ++ name
  else name

/-- The package-level variable `namespace = "ssl"` (renamed because
`namespace` is a Lean keyword). -/
def namespaceVar : String := "ssl"

/-- The package-level `labelOrder` map, as an association list. -/
def labelOrder : List (String × Nat) :=
  [("prober", 0), ("version", 0), ("chain_no", 0), ("file", 0),
   ("namespace", 0), ("kubeconfig", 0),
   ("secret", 1), ("name", 1),
   ("key", 2), ("type", 2),
   ("serial_no", 3), ("issuer_cn", 4), ("cn", 5), ("dnsnames", 6),
   ("ips", 7), ("emails", 8), ("ou", 9)]

/-- Reading `labelOrder[name]` in Go: a missing key yields the zero value
0. -/
def labelRank (name : String) : Nat :=
  ((labelOrder.lookup name).getD 0)

/-- The package-level `descs` map, as an association list from map key to
descriptor. -/
def descList : List (String × Desc) :=
  [("ssl_exporter_probe_success",
    ⟨BuildFQName namespaceVar "" "probe_success",
     "If the probe was a success", []⟩),
   ("ssl_exporter_prober",
    ⟨BuildFQName namespaceVar "" "prober",
     "The prober used by the exporter to connect to the target",
     ["prober"]⟩),
   ("ssl_tls_version_info",
    ⟨BuildFQName namespaceVar "" "tls_version_info",
     "The TLS version used", ["version"]⟩),
   ("ssl_cert_not_after",
    ⟨BuildFQName namespaceVar "" "cert_not_after",
     "NotAfter expressed as a Unix Epoch Time",
     ["serial_no", "issuer_cn", "cn", "dnsnames", "ips", "emails", "ou"]⟩),
   ("ssl_cert_not_before",
    ⟨BuildFQName namespaceVar "" "cert_not_before",
     "NotBefore expressed as a Unix Epoch Time",
     ["serial_no", "issuer_cn", "cn", "dnsnames", "ips", "emails", "ou"]⟩),
   ("ssl_verified_cert_not_after",
    ⟨BuildFQName namespaceVar "" "verified_cert_not_after",
     "NotAfter expressed as a Unix Epoch Time",
     ["chain_no", "serial_no", "issuer_cn", "cn", "dnsnames", "ips",
      "emails", "ou"]⟩),
   ("ssl_verified_cert_not_before",
    ⟨BuildFQName namespaceVar "" "verified_cert_not_before",
     "NotBefore expressed as a Unix Epoch Time", []⟩),
   ("ssl_ocsp_response_stapled",
    ⟨BuildFQName namespaceVar "" "ocsp_response_stapled",
     "If the connection state contains a stapled OCSP response", []⟩),
   ("ssl_ocsp_response_status",
    ⟨BuildFQName namespaceVar "" "ocsp_response_status",
     "The status in the OCSP response 0=Good 1=Revoked 2=Unknown", []⟩),
   ("ssl_ocsp_response_produced_at",
    ⟨BuildFQName namespaceVar "" "ocsp_response_produced_at",
     "The producedAt value in the OCSP response, expressed as a Unix Epoch Time",
     []⟩),
   ("ssl_ocsp_response_this_update",
    ⟨BuildFQName namespaceVar "" "ocsp_response_this_update",
     "The thisUpdate value in the OCSP response, expressed as a Unix Epoch Time",
     []⟩),
   ("ssl_ocsp_response_next_update",
    ⟨BuildFQName namespaceVar "" "ocsp_response_next_update",
     "The nextUpdate value in the OCSP response, expressed as a Unix Epoch Time",
     []⟩),
   ("ssl_ocsp_response_revoked_at",
    ⟨BuildFQName namespaceVar "" "ocsp_response_revoked_at",
     "The revocationTime value in the OCSP response, expressed as a Unix Epoch Time",
     []⟩),
   ("ssl_file_cert_not_after",
    ⟨BuildFQName namespaceVar "" "file_cert_not_after",
     "NotAfter expressed as a Unix Epoch Time for a certificate found in a file",
     ["file", "serial_no", "issuer_cn", "cn", "dnsnames", "ips", "emails",
      "ou"]⟩),
   ("ssl_file_cert_not_before",
    ⟨BuildFQName namespaceVar "" "file_cert_not_before",
     "NotBefore expressed as a Unix Epoch Time for a certificate found in a file",
     ["file", "serial_no", "issuer_cn", "cn", "dnsnames", "ips", "emails",
      "ou"]⟩),
   ("ssl_kubernetes_cert_not_after",
    ⟨BuildFQName namespaceVar "" "kubernetes_cert_not_after",
     "NotAfter expressed as a Unix Epoch Time for a certificate found in a kubernetes secret",
     ["namespace", "secret", "key", "serial_no", "issuer_cn", "cn",
      "dnsnames", "ips", "emails", "ou"]⟩),
   ("ssl_kubernetes_cert_not_before",
    ⟨BuildFQName namespaceVar "" "kubernetes_cert_not_before",
     "NotBefore expressed as a Unix Epoch Time for a certificate found in a kubernetes secret",
     ["namespace", "secret", "key", "serial_no", "issuer_cn", "cn",
      "dnsnames", "ips", "emails", "ou"]⟩),
   ("ssl_kubeconfig_cert_not_after",
    ⟨BuildFQName namespaceVar "kubeconfig" "cert_not_after",
     "NotAfter expressed as a Unix Epoch Time for a certificate found in a kubeconfig",
     ["kubeconfig", "name", "type", "serial_no", "issuer_cn", "cn",
      "dnsnames", "ips", "emails", "ou"]⟩),
   ("ssl_kubeconfig_cert_not_before",
    ⟨BuildFQName namespaceVar "kubeconfig" "cert_not_before",
     "NotBefore expressed as a Unix Epoch Time for a certificate found in a kubeconfig",
     ["kubeconfig", "name", "type", "serial_no", "issuer_cn", "cn",
      "dnsnames", "ips", "emails", "ou"]⟩)]

/-- Lookup `descs[name]`. -/
def descs (name : String) : Option Desc :=
  descList.lookup name

/-- The pairwise exchange pass of Go 1.18's `sort.Slice` restricted to a
gap-6 pair: walk the first six elements alongside the elements from index
6 on and swap a pair when the later element compares strictly below the
earlier one.  For slices of length at most 12 the gap-6 positions are
pairwise disjoint, so this zip-wise formulation is exactly the sequential
Shell pass of the Go implementation. -/
def shellSwap (xs ys : List LabelPair) : List LabelPair × List LabelPair :=
  match xs, ys with
  | x :: xs, y :: ys =>
      let p := shellSwap xs ys
      if labelRank y.Name < labelRank x.Name then (y :: p.1, x :: p.2)
      else (x :: p.1, y :: p.2)
  | xs, ys => (xs, ys)

/-- The Shell-sort pass with gap 6 of Go 1.18's `sort.Slice`, for slices
of length at most 12. -/
def shellPass6 (l : List LabelPair) : List LabelPair :=
  let p := shellSwap (l.take 6) (l.drop 6)
  p.1 ++ p.2

/-- Insert one element into an already sorted list the way Go's insertion
sort does: the element moves left only past elements it compares strictly
below, so it lands after every element of equal rank. -/
def insertGo (a : LabelPair) : List LabelPair → List LabelPair
  | [] => [a]
  | b :: l =>
      if labelRank a.Name < labelRank b.Name then a :: b :: l
      else b :: insertGo a l

/-- Go's insertion sort (`insertionSort_func`): left to right, each
element is inserted into the sorted prefix.  This is the stable sort by
`labelRank`. -/
def goInsertionSort (l : List LabelPair) : List LabelPair :=
  l.foldl (fun acc a => insertGo a acc) []

/-- Go 1.18's `sort.Slice` with the comparator
`labelOrder[l[i].Name] < labelOrder[l[j].Name]`, for slices of length at
most 12 (the partitioning loop of `quickSort_func` is never entered for
such slices; no descriptor has more than 10 labels, so every emitted
canonical metric is sorted in this exact regime): one Shell pass with gap
6 followed by an insertion sort. -/
def goSortSlice (l : List LabelPair) : List LabelPair :=
  goInsertionSort (shellPass6 l)

/-- `prometheus.NewConstMetric(desc, prometheus.GaugeValue, v,
labelValues...)`: fails when the number of label values does not match the
descriptor's variable label count. -/
def newConstMetric (desc : Desc) (v : Int) (labelValues : List String) :
    Option CanonMetric :=
  if labelValues.length = desc.variableLabels.length then
    some ⟨desc.fqName, labelValues, v⟩
  else none

/-- Outcome of the body of the per-metric loop of `Collect` (lines
233-259 of the source) for one raw metric. -/
inductive RemapResult where
  | emitted (c : CanonMetric)
  | skipped (d : Diag)
  | panicked
deriving DecidableEq, Repr

/-- The per-metric loop body of `Collect`: look the family name up in
`descs` (continue with a diagnostic when absent), sort the label pairs
with `sort.Slice`, read the gauge value (a nil `Gauge` panics), and build
the canonical metric (an error from `NewConstMetric` is logged and the
metric skipped). -/
def remapMetric (famName : String) (m : RawMetric) : RemapResult :=
  match descs famName with
  | none => .skipped (.unknownMetric famName)
  | some desc =>
      let sorted := goSortSlice m.Label
      match m.Gauge with
      | none => .panicked
      | some v =>
          match newConstMetric desc v (sorted.map (·.Value)) with
          | none => .skipped .constructError
          | some c => .emitted c

/-- Run the per-metric loop over the metrics of one family.  Returns the
emitted canonical metrics, the diagnostics, and whether a panic occurred
(after which nothing further runs). -/
def remapMetrics (famName : String) :
    List RawMetric → List CanonMetric × List Diag × Bool
  | [] => ([], [], false)
  | m :: ms =>
      match remapMetric famName m with
      | .panicked => ([], [], true)
      | .skipped d =>
          let r := remapMetrics famName ms
          (r.1, d :: r.2.1, r.2.2)
      | .emitted c =>
          let r := remapMetrics famName ms
          (c :: r.1, r.2.1, r.2.2)

/-- Run the per-family loop of `Collect` over the gathered families. -/
def remapFamilies : List RawFamily → List CanonMetric × List Diag × Bool
  | [] => ([], [], false)
  | f :: fs =>
      let r := remapMetrics f.Name f.Metric
      if r.2.2 then (r.1, r.2.1, true)
      else
        let rest := remapFamilies fs
        (r.1 ++ rest.1, r.2.1 ++ rest.2.1, rest.2.2)

/-- `proberType.WithLabelValues(p)`: fetch or create the child for label
value `p` in the gauge vector. -/
def addChild (children : List String) (p : String) : List String :=
  if p ∈ children then children else children ++ [p]

/-- The family of the shared probe-success gauge as `Registry.Gather`
returns it: named after `opts.Namespace`, one unlabelled gauge metric. -/
def probeSuccessFam (ns : String) (v : Int) : RawFamily :=
  ⟨BuildFQName ns "" "probe_success", [⟨[], some v⟩]⟩

/-- The family of the shared prober-identity gauge vector as
`Registry.Gather` returns it: one metric per child, each with value 1.
The model lists the children in creation order, whereas the real
`Gather` sorts a family's metrics by label values; no theorem below
depends on the order within this family (the per-target conclusions
about it are memberships, counts-as-filters and permutations). -/
def proberFam (ns : String) (children : List String) : RawFamily :=
  ⟨BuildFQName ns "" "prober",
   children.map (fun p => ⟨[⟨"prober", p⟩], some 1⟩)⟩

/-- Result of `Collect` (or of processing a suffix of the target list):
the exporter state after the run, the canonical metrics sent on the
channel, the logged diagnostics, and whether a panic aborted the run. -/
structure CollectResult where
  e : Exporter
  emitted : List CanonMetric
  diags : List Diag
  panicked : Bool
deriving DecidableEq, Repr

/-- Did the per-target resolution steps of `Collect` (lines 192-211)
succeed for this target?  Note the first check is exactly the source's:
the default-module substitution branch is entered when `target.Module`
is NOT empty, and the module lookup always uses `target.Module`. -/
def resolves (cfg : SSLConfig) (ps : Probers) (t : SSLTarget) : Bool :=
  if t.Module ≠ "" ∧ cfg.DefaultModule = "" then false
  else
    match cfg.Modules.lookup t.Module with
    | none => false
    | some m => (ps m.Prober).isSome

/-- The body of the per-target loop of `Collect` (lines 189-261) for one
target.  Resolution failures log a diagnostic and leave the state
untouched (`continue`); on success a fresh registry is allocated and
stored in `options.Registry`, the collector-level gauges are registered
into it, the prober child is created/updated, the probing strategy runs,
the probe-success gauge is set from its error, and the gathered families
are remapped.

Modelling caveats (see the header): the gathered list is kept in
registration order (collector-level families first) whereas the real
`Gather` sorts families by name — observable only through which family
panics first when several could, so theorems about emissions in the
presence of possible panics carry a gauge-only hypothesis — and the
real `Gather` error path (source lines 227-231: log and skip the whole
target) is not represented: every theorem about a resolved target's
output is implicitly scoped to a successful gather. -/
def collectTarget (ps : Probers) (t : SSLTarget) (e : Exporter) :
    CollectResult :=
  let cfg := e.options.SSLConfig
  if t.Module ≠ "" ∧ cfg.DefaultModule = "" then
    ⟨e, [], [.missingModule], false⟩
  else
    match cfg.Modules.lookup t.Module with
    | none => ⟨e, [], [.unknownModule t.Module], false⟩
    | some module =>
        match ps module.Prober with
        | none => ⟨e, [], [.unknownProber module.Prober], false⟩
        | some probeFunc =>
            let children := addChild e.proberChildren module.Prober
            let pr := probeFunc t.Target module
            let psVal : Int := if pr.1.isSome then 0 else 1
            let reg : Registry := ⟨e.nextStamp, pr.2⟩
            let e' : Exporter :=
              { probeSuccessVal := psVal
                proberChildren := children
                options := { e.options with Registry := reg }
                nextStamp := e.nextStamp + 1 }
            let ns := e.options.Namespace
            let gathered :=
              probeSuccessFam ns psVal :: proberFam ns children :: pr.2
            let errDiags :=
              match pr.1 with
              | some msg => [Diag.proberError msg]
              | none => []
            let r := remapFamilies gathered
            ⟨e', r.1, errDiags ++ r.2.1, r.2.2⟩

/-- The per-target loop of `Collect` over a list of targets.  A panic in
one target's remapping aborts the whole call (no later target runs). -/
def collectTargets (ps : Probers) : List SSLTarget → Exporter →
    CollectResult
  | [], e => ⟨e, [], [], false⟩
  | t :: ts, e =>
      let r := collectTarget ps t e
      if r.panicked then r
      else
        let rest := collectTargets ps ts r.e
        ⟨rest.e, r.emitted ++ rest.emitted, r.diags ++ rest.diags,
         rest.panicked⟩

/-- `Exporter.Collect`: process every configured target. -/
def Collect (ps : Probers) (e : Exporter) : CollectResult :=
  collectTargets ps e.options.SSLTargets e

/-- `NewSSLExporter`: gauges start at zero value with no children; the
ghost allocation counter starts above the caller-supplied registry's
stamp. -/
def NewSSLExporter (opts : Options) : Exporter :=
  { probeSuccessVal := 0
    proberChildren := []
    options := opts
    nextStamp := opts.Registry.stamp + 1 }

/-! ### Properties of the label sort -/

/-- The (total) comparison underlying the `sort.Slice` call: label pairs
ordered by precedence rank. -/
def rankLe (a b : LabelPair) : Prop :=
  labelRank a.Name ≤ labelRank b.Name

theorem insertGo_perm (a : LabelPair) (l : List LabelPair) :
    (insertGo a l).Perm (a :: l) := by
  induction l with
  | nil => simp [insertGo]
  | cons b l ih =>
    simp only [insertGo]
    split
    · exact List.Perm.refl _
    · exact (ih.cons b).trans (List.Perm.swap a b l)

theorem mem_insertGo {x a : LabelPair} {l : List LabelPair}
    (h : x ∈ insertGo a l) : x = a ∨ x ∈ l := by
  have := (insertGo_perm a l).mem_iff.mp h
  simpa using this

theorem insertGo_sorted (a : LabelPair) {l : List LabelPair}
    (h : l.Sorted rankLe) : (insertGo a l).Sorted rankLe := by
  induction l with
  | nil => simp [insertGo, rankLe]
  | cons b l ih =>
    rw [List.sorted_cons] at h
    simp only [insertGo]
    split
    · rename_i hab
      rw [List.sorted_cons]
      refine ⟨?_, List.sorted_cons.mpr h⟩
      intro x hx
      rcases List.mem_cons.mp hx with hx | hx
      · subst hx; exact Nat.le_of_lt hab
      · exact Nat.le_trans (Nat.le_of_lt hab) (h.1 x hx)
    · rename_i hab
      rw [List.sorted_cons]
      refine ⟨?_, ih h.2⟩
      intro x hx
      rcases mem_insertGo hx with hx | hx
      · subst hx; exact Nat.le_of_not_lt hab
      · exact h.1 x hx

theorem foldl_insertGo_perm (l acc : List LabelPair) :
    (List.foldl (fun acc a => insertGo a acc) acc l).Perm (acc ++ l) := by
  induction l generalizing acc with
  | nil => simp
  | cons a l ih =>
    simp only [List.foldl_cons]
    exact ((ih (insertGo a acc)).trans
      (((insertGo_perm a acc).append_right l).trans List.perm_middle.symm))

theorem foldl_insertGo_sorted (l : List LabelPair) {acc : List LabelPair}
    (h : acc.Sorted rankLe) :
    (List.foldl (fun acc a => insertGo a acc) acc l).Sorted rankLe := by
  induction l generalizing acc with
  | nil => simpa using h
  | cons a l ih => exact ih (insertGo_sorted a h)

theorem goInsertionSort_perm (l : List LabelPair) :
    (goInsertionSort l).Perm l := by
  simpa using foldl_insertGo_perm l []

theorem goInsertionSort_sorted (l : List LabelPair) :
    (goInsertionSort l).Sorted rankLe :=
  foldl_insertGo_sorted l (by simp)

theorem shellSwap_perm (xs ys : List LabelPair) :
    ((shellSwap xs ys).1 ++ (shellSwap xs ys).2).Perm (xs ++ ys) := by
  induction xs generalizing ys with
  | nil => cases ys <;> simp [shellSwap]
  | cons x xs ih =>
    cases ys with
    | nil => simp [shellSwap]
    | cons y ys =>
      simp only [shellSwap]
      split
      · show (y :: (shellSwap xs ys).1 ++ x :: (shellSwap xs ys).2).Perm
          (x :: xs ++ y :: ys)
        have h1 : ((shellSwap xs ys).1 ++ x :: (shellSwap xs ys).2).Perm
            (x :: ((shellSwap xs ys).1 ++ (shellSwap xs ys).2)) :=
          List.perm_middle
        have h2 : (x :: ((shellSwap xs ys).1 ++ (shellSwap xs ys).2)).Perm
            (x :: (xs ++ ys)) := (ih ys).cons x
        have h3 : (y :: x :: (xs ++ ys)).Perm (x :: y :: (xs ++ ys)) :=
          List.Perm.swap x y _
        have h4 : (y :: (xs ++ ys)).Perm (xs ++ y :: ys) :=
          List.perm_middle.symm
        exact (((h1.trans h2).cons y).trans h3).trans (h4.cons x)
      · show (x :: (shellSwap xs ys).1 ++ y :: (shellSwap xs ys).2).Perm
          (x :: xs ++ y :: ys)
        have h1 : ((shellSwap xs ys).1 ++ y :: (shellSwap xs ys).2).Perm
            (y :: ((shellSwap xs ys).1 ++ (shellSwap xs ys).2)) :=
          List.perm_middle
        have h2 : (y :: ((shellSwap xs ys).1 ++ (shellSwap xs ys).2)).Perm
            (y :: (xs ++ ys)) := (ih ys).cons y
        have h3 : (y :: (xs ++ ys)).Perm (xs ++ y :: ys) :=
          List.perm_middle.symm
        exact ((h1.trans h2).cons x).trans (h3.cons x)

theorem shellPass6_perm (l : List LabelPair) : (shellPass6 l).Perm l := by
  have h := shellSwap_perm (l.take 6) (l.drop 6)
  rw [List.take_append_drop] at h
  exact h

/-- The embedded `sort.Slice` call permutes the label pairs. -/
theorem goSortSlice_perm (l : List LabelPair) : (goSortSlice l).Perm l :=
  (goInsertionSort_perm (shellPass6 l)).trans (shellPass6_perm l)

/-- The embedded `sort.Slice` call leaves the label pairs ordered
ascending by precedence rank. -/
theorem goSortSlice_sorted (l : List LabelPair) :
    (goSortSlice l).Sorted rankLe :=
  goInsertionSort_sorted (shellPass6 l)

/-! ### Claims C4 and C5: canonical label order -/

/-- A raw metric of a family named `ssl_cert_not_after` (7 descriptor
labels, so it is emitted) whose label pairs are in the alphabetical order
`Registry.Gather` produces.  The two rank-0 labels `file` and `version`
are a precedence tie; the Shell pass of `sort.Slice` moves `version` past
`file`, so the tie does not keep its encounter order. -/
def tieMetric : RawMetric :=
  ⟨[⟨"cn", "a"⟩, ⟨"file", "b"⟩, ⟨"ips", "c"⟩, ⟨"key", "d"⟩, ⟨"ou", "e"⟩,
    ⟨"secret", "f"⟩, ⟨"version", "g"⟩], some 42⟩

/-- A raw metric of a family named `ssl_cert_not_after` containing a
label `zzz` that is absent from `labelOrder`, in alphabetical order.  The
absent label reads rank 0 from the Go map and sorts FIRST. -/
def absentMetric : RawMetric :=
  ⟨[⟨"cn", "a"⟩, ⟨"dnsnames", "b"⟩, ⟨"emails", "c"⟩, ⟨"ips", "d"⟩,
    ⟨"ou", "e"⟩, ⟨"serial_no", "f"⟩, ⟨"zzz", "g"⟩], some 7⟩

/-- C4 counterexample: the claim says a label absent from the precedence
table sorts after every label present in the table.  In the code a
missing `labelOrder` key reads the zero value 0, the highest precedence:
for the concrete emitted metric below the absent label `zzz` sorts FIRST,
before the present labels `serial_no`, `cn`, `dnsnames`, `ips`, `emails`
and `ou`, and its value `"g"` heads the canonical label-value list. -/
theorem c4_absent_label_counterexample :
    labelOrder.lookup "zzz" = none ∧
    labelOrder.lookup "serial_no" = some 3 ∧
    goSortSlice absentMetric.Label =
      [⟨"zzz", "g"⟩, ⟨"serial_no", "f"⟩, ⟨"cn", "a"⟩, ⟨"dnsnames", "b"⟩,
       ⟨"ips", "d"⟩, ⟨"emails", "c"⟩, ⟨"ou", "e"⟩] ∧
    remapMetric "ssl_cert_not_after" absentMetric =
      .emitted ⟨"ssl_cert_not_after", ["g", "f", "a", "b", "d", "c", "e"], 7⟩ := by
  refine ⟨by decide, by decide, by decide, by decide⟩

/-- C4 amended: a label whose name is absent from the label precedence
table reads rank 0 (the Go zero value), i.e. the HIGHEST precedence: in
the canonical order every label placed before it also has rank 0, so the
absent label sorts together with the rank-0 labels, effectively first,
not last. -/
theorem c4_absent_label_theorem (l : List LabelPair)
    (i j : Fin (goSortSlice l).length) (hij : (i : Nat) < (j : Nat))
    (habs : labelOrder.lookup ((goSortSlice l).get j).Name = none) :
    labelRank ((goSortSlice l).get i).Name = 0 := by
  have hs : (goSortSlice l).Pairwise rankLe := goSortSlice_sorted l
  have h := List.pairwise_iff_get.mp hs i j hij
  have hj : labelRank ((goSortSlice l).get j).Name = 0 := by
    unfold labelRank
    rw [habs]
    rfl
  exact Nat.le_zero.mp (hj ▸ h)

/-- Witness for the C4 amended theorem at a concrete input: a list with
two table-absent labels, whose sorted form keeps one absent label ahead
of the other, both at rank 0. -/
theorem c4_absent_label_witness :
    labelRank ((goSortSlice [⟨"aaa", "1"⟩, ⟨"zzz", "2"⟩]).get
      ⟨0, by decide⟩).Name = 0 :=
  c4_absent_label_theorem [⟨"aaa", "1"⟩, ⟨"zzz", "2"⟩]
    ⟨0, by decide⟩ ⟨1, by decide⟩ (by decide) (by decide)

/-- C5 counterexample: the claim says labels sharing a precedence rank
retain their encounter order (stable sort).  `sort.Slice` in Go 1.18 runs
a gap-6 Shell pass before its insertion sort, which is not stable: in the
concrete emitted metric below the rank-0 labels are encountered as
`file`(value `"b"`) before `version`(value `"g"`), yet the canonical
metric carries `"g"` before `"b"`; the stable order (computed by the
plain insertion sort) differs from what the code produces. -/
theorem c5_stable_sort_counterexample :
    labelRank "file" = labelRank "version" ∧
    goSortSlice tieMetric.Label =
      [⟨"version", "g"⟩, ⟨"file", "b"⟩, ⟨"secret", "f"⟩, ⟨"key", "d"⟩,
       ⟨"cn", "a"⟩, ⟨"ips", "c"⟩, ⟨"ou", "e"⟩] ∧
    goInsertionSort tieMetric.Label ≠ goSortSlice tieMetric.Label ∧
    remapMetric "ssl_cert_not_after" tieMetric =
      .emitted ⟨"ssl_cert_not_after", ["g", "b", "f", "d", "a", "c", "e"], 42⟩ := by
  refine ⟨by decide, by decide, by decide, by decide⟩

/-- C5 amended: the emitted canonical metric's label values are the raw
label pairs reordered ascending by precedence rank (a permutation of the
raw labels, sorted by `labelRank`); labels sharing a rank may however be
reordered, because `sort.Slice` is not stable. -/
theorem c5_label_sort_theorem (famName : String) (m : RawMetric)
    (c : CanonMetric) (h : remapMetric famName m = .emitted c) :
    c.labelValues = (goSortSlice m.Label).map (·.Value) ∧
    (goSortSlice m.Label).Perm m.Label ∧
    (goSortSlice m.Label).Sorted rankLe := by
  refine ⟨?_, goSortSlice_perm _, goSortSlice_sorted _⟩
  cases hd : descs famName with
  | none => simp [remapMetric, hd] at h
  | some desc =>
    cases hg : m.Gauge with
    | none => simp [remapMetric, hd, hg] at h
    | some v =>
      simp only [remapMetric, hd, hg, newConstMetric] at h
      split at h
      · simp at h
      · rename_i c' heq
        simp only [RemapResult.emitted.injEq] at h
        split at heq
        · injection heq with heq2
          rw [← h, ← heq2]
        · exact absurd heq (by simp)

/-- Witness for the C5 amended theorem at the concrete tie metric. -/
theorem c5_label_sort_witness :
    (⟨"ssl_cert_not_after", ["g", "b", "f", "d", "a", "c", "e"], 42⟩ :
        CanonMetric).labelValues =
      (goSortSlice tieMetric.Label).map (·.Value) ∧
    (goSortSlice tieMetric.Label).Perm tieMetric.Label ∧
    (goSortSlice tieMetric.Label).Sorted rankLe :=
  c5_label_sort_theorem "ssl_cert_not_after" tieMetric _ (by decide)

/-! ### Remap-loop lemmas, claims C7 and C9 -/

theorem remapFamilies_append (as bs : List RawFamily) :
    remapFamilies (as ++ bs) =
      if (remapFamilies as).2.2 then remapFamilies as
      else ((remapFamilies as).1 ++ (remapFamilies bs).1,
            (remapFamilies as).2.1 ++ (remapFamilies bs).2.1,
            (remapFamilies bs).2.2) := by
  induction as with
  | nil => simp [remapFamilies]
  | cons a as ih =>
    by_cases h : (remapMetrics a.Name a.Metric).2.2
    · simp [remapFamilies, h]
    · by_cases h2 : (remapFamilies as).2.2
      · simp [remapFamilies, h, h2, ih]
      · simp [remapFamilies, h, h2, ih]

/-- Every metric of a family whose name is not a `descs` key is skipped
with an unknown-metric diagnostic; in particular the nil-gauge panic is
unreachable for such a family (the name check precedes the dereference). -/
theorem remapMetrics_unknown (n : String) (hd : descs n = none)
    (ms : List RawMetric) :
    remapMetrics n ms = ([], ms.map (fun _ => Diag.unknownMetric n), false) := by
  induction ms with
  | nil => rfl
  | cons m ms ih => simp [remapMetrics, remapMetric, hd, ih]

/-- C7 counterexample: the claim says a raw metric that is not a gauge is
logged and skipped and that constructing canonical metrics never panics
the scrape.  A gathered metric under a known family name whose `Gauge`
field is nil makes `Collect` dereference a nil pointer
(`*m.Gauge.Value`): the scrape panics. -/
def counterFam : RawFamily := ⟨"ssl_cert_not_after", [⟨[], none⟩]⟩

/-- The probing strategy registering the non-gauge metric, and a
configuration resolving to it. -/
def counterProbers : Probers :=
  fun s => if s = "tcp" then some (fun _ _ => (none, [counterFam])) else none

def counterOpts : Options :=
  ⟨"ssl_exporter", "/metrics", "/probe", ⟨0, []⟩,
   [⟨"example.com:443", "tcp"⟩], ⟨"tcp", [("tcp", ⟨"tcp"⟩)]⟩⟩

/-- C7 counterexample theorem: with a resolvable target whose probing
strategy registers a non-gauge metric under the known name
`ssl_cert_not_after`, the remap step panics and the whole `Collect` call
is aborted by the panic — the metric is not logged-and-skipped. -/
theorem c7_nil_gauge_panic_counterexample :
    remapMetric "ssl_cert_not_after" ⟨[], none⟩ = .panicked ∧
    (Collect counterProbers (NewSSLExporter counterOpts)).panicked = true := by
  refine ⟨by decide, by decide⟩

/-- C7 amended: a failure of the canonical-metric constructor (a
label-count mismatch between the descriptor's label list and the raw
family's labels) is logged as a construction error and the metric is
skipped without panicking, and no raw metric that IS a gauge can panic
the scrape; a raw metric that is not a gauge under a registry-known name,
however, panics (see the counterexample). -/
theorem c7_construct_failure_theorem :
    (∀ (famName : String) (m : RawMetric) (desc : Desc) (v : Int),
      descs famName = some desc → m.Gauge = some v →
      m.Label.length ≠ desc.variableLabels.length →
      remapMetric famName m = .skipped .constructError) ∧
    (∀ (famName : String) (m : RawMetric), m.Gauge.isSome →
      remapMetric famName m ≠ .panicked) := by
  constructor
  · intro famName m desc v hd hg hlen
    have hsort : (goSortSlice m.Label).length = m.Label.length :=
      (goSortSlice_perm m.Label).length_eq
    simp only [remapMetric, hd, hg, newConstMetric]
    have : (goSortSlice m.Label).length ≠ desc.variableLabels.length := by
      rw [hsort]; exact hlen
    simp [this]
  · intro famName m hg
    cases hd : descs famName with
    | none => simp [remapMetric, hd]
    | some desc =>
      cases hgv : m.Gauge with
      | none => rw [hgv] at hg; simp at hg
      | some v =>
        simp only [remapMetric, hd, hgv, newConstMetric]
        split <;> simp

/-- Witness for the C7 amended theorem: a gauge metric with no labels
under the one-label family `ssl_tls_version_info` is skipped with a
construction error, and a gauge metric never panics. -/
theorem c7_construct_failure_witness :
    remapMetric "ssl_tls_version_info" ⟨[], some 3⟩ =
      .skipped .constructError ∧
    remapMetric "ssl_tls_version_info" ⟨[], some 3⟩ ≠ .panicked := by
  constructor
  · exact c7_construct_failure_theorem.1 "ssl_tls_version_info" ⟨[], some 3⟩
      ⟨"ssl_tls_version_info", "The TLS version used", ["version"]⟩ 3
      (by decide) (by decide) (by decide)
  · exact c7_construct_failure_theorem.2 "ssl_tls_version_info" ⟨[], some 3⟩
      (by decide)

/-- C9: a raw family whose name is not a `descs` key contributes no
canonical metric, logs an unknown-metric diagnostic, and its presence
changes neither the emitted metrics nor the panic behaviour of the other
families of the same target. -/
theorem c9_unknown_family_theorem (pre post : List RawFamily)
    (f : RawFamily) (hd : descs f.Name = none) (hm : f.Metric ≠ [])
    (hp : (remapFamilies pre).2.2 = false) :
    (remapFamilies (pre ++ f :: post)).1 = (remapFamilies (pre ++ post)).1 ∧
    (remapFamilies (pre ++ f :: post)).2.2 =
      (remapFamilies (pre ++ post)).2.2 ∧
    Diag.unknownMetric f.Name ∈ (remapFamilies (pre ++ f :: post)).2.1 := by
  have hf : remapFamilies (f :: post) =
      ((remapFamilies post).1,
       f.Metric.map (fun _ => Diag.unknownMetric f.Name) ++
         (remapFamilies post).2.1,
       (remapFamilies post).2.2) := by
    simp [remapFamilies, remapMetrics_unknown f.Name hd f.Metric]
  rw [remapFamilies_append pre (f :: post), remapFamilies_append pre post,
    hf, hp]
  refine ⟨by simp, by simp, ?_⟩
  simp only [if_false, Bool.false_eq_true]
  cases hml : f.Metric with
  | nil => exact absurd hml hm
  | cons m ms =>
    simp

/-- Witness for C9: the scenario of the spec — a strategy registers
`ssl_unexpected_metric`, which is absent from the canonical output while
the known `ssl_tls_version_info` family around it is still emitted. -/
theorem c9_unknown_family_witness :
    (remapFamilies ([⟨"ssl_tls_version_info", [⟨[⟨"version", "TLS 1.3"⟩], some 1⟩]⟩] ++
        ⟨"ssl_unexpected_metric", [⟨[], some 5⟩]⟩ :: [])).1 =
      (remapFamilies ([⟨"ssl_tls_version_info", [⟨[⟨"version", "TLS 1.3"⟩], some 1⟩]⟩] ++ [])).1 ∧
    (remapFamilies ([⟨"ssl_tls_version_info", [⟨[⟨"version", "TLS 1.3"⟩], some 1⟩]⟩] ++
        ⟨"ssl_unexpected_metric", [⟨[], some 5⟩]⟩ :: [])).2.2 =
      (remapFamilies ([⟨"ssl_tls_version_info", [⟨[⟨"version", "TLS 1.3"⟩], some 1⟩]⟩] ++ [])).2.2 ∧
    Diag.unknownMetric "ssl_unexpected_metric" ∈
      (remapFamilies ([⟨"ssl_tls_version_info", [⟨[⟨"version", "TLS 1.3"⟩], some 1⟩]⟩] ++
        ⟨"ssl_unexpected_metric", [⟨[], some 5⟩]⟩ :: [])).2.1 :=
  c9_unknown_family_theorem
    [⟨"ssl_tls_version_info", [⟨[⟨"version", "TLS 1.3"⟩], some 1⟩]⟩] []
    ⟨"ssl_unexpected_metric", [⟨[], some 5⟩]⟩
    (by decide) (by decide) (by decide)

/-! ### Claim C2: default-module substitution (code bug) -/

/-- A prober table providing the `tcp` prober; its strategy registers
nothing and succeeds. -/
def tcpProbers : Probers :=
  fun s => if s = "tcp" then some (fun _ _ => (none, [])) else none

/-- The C2 failing input: one target with an EMPTY module name, while the
configuration designates the resolvable default module `tcp`. -/
def emptyModuleOpts : Options :=
  ⟨"ssl_exporter", "/metrics", "/probe", ⟨0, []⟩,
   [⟨"example.com:443", ""⟩], ⟨"tcp", [("tcp", ⟨"tcp"⟩)]⟩⟩

/-- C2 code-bug demonstration: the substitution branch tests
`target.Module != ""` (inverted) and the module lookup always uses
`target.Module`, so a target with an empty module name never receives the
configured default: the scrape looks up the empty module name, logs
"Unknown module ''" and skips the target, although the default module
`tcp` is configured and resolvable (last conjunct).  The computed
`moduleName` is dead, and the message "Module parameter must be set"
fires exactly when the parameter IS set. -/
theorem c2_default_module_code_bug :
    (Collect tcpProbers (NewSSLExporter emptyModuleOpts)).emitted = [] ∧
    (Collect tcpProbers (NewSSLExporter emptyModuleOpts)).diags =
      [.unknownModule ""] ∧
    (Collect tcpProbers (NewSSLExporter emptyModuleOpts)).e =
      NewSSLExporter emptyModuleOpts ∧
    (emptyModuleOpts.SSLConfig.Modules.lookup
      emptyModuleOpts.SSLConfig.DefaultModule).isSome = true ∧
    (tcpProbers "tcp").isSome = true := by
  refine ⟨by decide, by decide, by decide, by decide, by decide⟩

/-! ### Structure of `collectTarget` -/

/-- The canonical probe-success metric (under the exporter namespace
`ssl_exporter`, whose gauge name `ssl_exporter_probe_success` maps to the
descriptor named `ssl_probe_success`). -/
def probeSuccessMetric (v : Int) : CanonMetric := ⟨"ssl_probe_success", [], v⟩

/-- The canonical prober-identity metric for one gauge-vector child. -/
def proberMetric (p : String) : CanonMetric := ⟨"ssl_prober", [p], 1⟩

/-- A target failing any of the three resolution steps is skipped: the
exporter state is untouched, nothing is emitted, nothing panics. -/
theorem collectTarget_unresolved (ps : Probers) (t : SSLTarget)
    (e : Exporter) (h : resolves e.options.SSLConfig ps t = false) :
    (collectTarget ps t e).e = e ∧ (collectTarget ps t e).emitted = [] ∧
    (collectTarget ps t e).panicked = false := by
  by_cases hC : (t.Module ≠ "" ∧ e.options.SSLConfig.DefaultModule = "")
  · simp [collectTarget, hC]
  · cases hL : e.options.SSLConfig.Modules.lookup t.Module with
    | none => simp [collectTarget, hC, hL]
    | some module =>
      cases hP : ps module.Prober with
      | none => simp [collectTarget, hC, hL, hP]
      | some pf => simp [resolves, hC, hL, hP] at h

/-- Remapping the gathered probe-success family (exporter namespace
`ssl_exporter`) yields exactly one canonical metric carrying the gauge's
current value. -/
theorem remap_probeSuccessFam (v : Int) :
    remapMetrics (probeSuccessFam "ssl_exporter" v).Name
      (probeSuccessFam "ssl_exporter" v).Metric =
      ([probeSuccessMetric v], [], false) := rfl

/-- Remapping the gathered prober-identity family (exporter namespace
`ssl_exporter`) yields one canonical metric per gauge-vector child. -/
theorem remap_proberChildren (children : List String) :
    remapMetrics "ssl_exporter_prober"
      (children.map (fun p => ⟨[⟨"prober", p⟩], some 1⟩)) =
      (children.map proberMetric, [], false) := by
  induction children with
  | nil => rfl
  | cons p pr ih =>
    have h1 : remapMetric "ssl_exporter_prober" ⟨[⟨"prober", p⟩], some 1⟩ =
        .emitted (proberMetric p) := rfl
    simp [remapMetrics, h1, ih]

/-- The full shape of `collectTarget` for a target whose module and
prober resolve, with no assumption on the exporter namespace. -/
theorem collectTarget_resolved (ps : Probers) (t : SSLTarget)
    (e : Exporter) (module : Module) (pf : ProberFn)
    (hC : ¬(t.Module ≠ "" ∧ e.options.SSLConfig.DefaultModule = ""))
    (hL : e.options.SSLConfig.Modules.lookup t.Module = some module)
    (hP : ps module.Prober = some pf) :
    collectTarget ps t e =
      ⟨{ probeSuccessVal := if (pf t.Target module).1.isSome then 0 else 1
         proberChildren := addChild e.proberChildren module.Prober
         options := { e.options with
                      Registry := ⟨e.nextStamp, (pf t.Target module).2⟩ }
         nextStamp := e.nextStamp + 1 },
       (remapFamilies
         (probeSuccessFam e.options.Namespace
            (if (pf t.Target module).1.isSome then 0 else 1) ::
          proberFam e.options.Namespace
            (addChild e.proberChildren module.Prober) ::
          (pf t.Target module).2)).1,
       (match (pf t.Target module).1 with
        | some msg => [Diag.proberError msg]
        | none => []) ++
         (remapFamilies
           (probeSuccessFam e.options.Namespace
              (if (pf t.Target module).1.isSome then 0 else 1) ::
            proberFam e.options.Namespace
              (addChild e.proberChildren module.Prober) ::
            (pf t.Target module).2)).2.1,
       (remapFamilies
         (probeSuccessFam e.options.Namespace
            (if (pf t.Target module).1.isSome then 0 else 1) ::
          proberFam e.options.Namespace
            (addChild e.proberChildren module.Prober) ::
          (pf t.Target module).2)).2.2⟩ := by
  simp [collectTarget, hC, hL, hP]

/-- The families `Registry.Gather` returns for a resolved target: the two
collector-level gauge families followed by the strategy's families (in
the model's registration order; the real `Gather` sorts families by
name — see the caveat on `collectTarget`). -/
def gatheredOf (e : Exporter) (module : Module) (pf : ProberFn)
    (t : SSLTarget) : List RawFamily :=
  probeSuccessFam e.options.Namespace
    (if (pf t.Target module).1.isSome then 0 else 1) ::
  proberFam e.options.Namespace (addChild e.proberChildren module.Prober) ::
  (pf t.Target module).2

theorem collectTarget_resolved_e (ps : Probers) (t : SSLTarget)
    (e : Exporter) (module : Module) (pf : ProberFn)
    (hC : ¬(t.Module ≠ "" ∧ e.options.SSLConfig.DefaultModule = ""))
    (hL : e.options.SSLConfig.Modules.lookup t.Module = some module)
    (hP : ps module.Prober = some pf) :
    (collectTarget ps t e).e =
      { probeSuccessVal := if (pf t.Target module).1.isSome then 0 else 1
        proberChildren := addChild e.proberChildren module.Prober
        options := { e.options with
                     Registry := ⟨e.nextStamp, (pf t.Target module).2⟩ }
        nextStamp := e.nextStamp + 1 } := by
  rw [collectTarget_resolved ps t e module pf hC hL hP]

theorem collectTarget_resolved_emitted (ps : Probers) (t : SSLTarget)
    (e : Exporter) (module : Module) (pf : ProberFn)
    (hC : ¬(t.Module ≠ "" ∧ e.options.SSLConfig.DefaultModule = ""))
    (hL : e.options.SSLConfig.Modules.lookup t.Module = some module)
    (hP : ps module.Prober = some pf) :
    (collectTarget ps t e).emitted =
      (remapFamilies (gatheredOf e module pf t)).1 := by
  rw [collectTarget_resolved ps t e module pf hC hL hP]
  rfl

theorem collectTarget_resolved_diags (ps : Probers) (t : SSLTarget)
    (e : Exporter) (module : Module) (pf : ProberFn)
    (hC : ¬(t.Module ≠ "" ∧ e.options.SSLConfig.DefaultModule = ""))
    (hL : e.options.SSLConfig.Modules.lookup t.Module = some module)
    (hP : ps module.Prober = some pf) :
    (collectTarget ps t e).diags =
      (match (pf t.Target module).1 with
       | some msg => [Diag.proberError msg]
       | none => []) ++
      (remapFamilies (gatheredOf e module pf t)).2.1 := by
  rw [collectTarget_resolved ps t e module pf hC hL hP]
  rfl

theorem collectTarget_resolved_panicked (ps : Probers) (t : SSLTarget)
    (e : Exporter) (module : Module) (pf : ProberFn)
    (hC : ¬(t.Module ≠ "" ∧ e.options.SSLConfig.DefaultModule = ""))
    (hL : e.options.SSLConfig.Modules.lookup t.Module = some module)
    (hP : ps module.Prober = some pf) :
    (collectTarget ps t e).panicked =
      (remapFamilies (gatheredOf e module pf t)).2.2 := by
  rw [collectTarget_resolved ps t e module pf hC hL hP]
  rfl

/-- The full shape of `collectTarget` for a target whose module and
prober resolve, under the exporter namespace `ssl_exporter`: the fresh
registry (with a fresh stamp) is stored in `options.Registry`, the
prober child is added, the probe-success value reflects the prober's
error, and the emission is the probe-success metric, one prober-identity
metric per child, then the remap of the strategy's own families. -/
theorem collectTarget_resolved_spec (ps : Probers) (t : SSLTarget)
    (e : Exporter) (module : Module) (pf : ProberFn)
    (hns : e.options.Namespace = "ssl_exporter")
    (hC : ¬(t.Module ≠ "" ∧ e.options.SSLConfig.DefaultModule = ""))
    (hL : e.options.SSLConfig.Modules.lookup t.Module = some module)
    (hP : ps module.Prober = some pf) :
    collectTarget ps t e =
      ⟨{ probeSuccessVal := if (pf t.Target module).1.isSome then 0 else 1
         proberChildren := addChild e.proberChildren module.Prober
         options := { e.options with
                      Registry := ⟨e.nextStamp, (pf t.Target module).2⟩ }
         nextStamp := e.nextStamp + 1 },
       probeSuccessMetric (if (pf t.Target module).1.isSome then 0 else 1) ::
         ((addChild e.proberChildren module.Prober).map proberMetric ++
          (remapFamilies (pf t.Target module).2).1),
       (match (pf t.Target module).1 with
        | some msg => [Diag.proberError msg]
        | none => []) ++ (remapFamilies (pf t.Target module).2).2.1,
       (remapFamilies (pf t.Target module).2).2.2⟩ := by
  have hps := remap_probeSuccessFam
    (if (pf t.Target module).1.isSome then 0 else 1)
  have hpr := remap_proberChildren (addChild e.proberChildren module.Prober)
  have hn1 : BuildFQName "ssl_exporter" "" "probe_success" =
      "ssl_exporter_probe_success" := rfl
  have hn2 : BuildFQName "ssl_exporter" "" "prober" =
      "ssl_exporter_prober" := rfl
  simp only [collectTarget, hC, hL, hP, hns, if_false, ite_false]
  simp only [remapFamilies, probeSuccessFam, proberFam, hn1, hn2] at hps hpr ⊢
  simp [hps, hpr]

/-! ### Gauge-vector children and frame lemmas -/

theorem addChild_mem_self (c : List String) (p : String) : p ∈ addChild c p := by
  unfold addChild
  split
  · assumption
  · simp

/-- `Collect` only ever writes the `Registry` field of `options`: all
other fields survive one target. -/
theorem collectTarget_frame (ps : Probers) (t : SSLTarget) (e : Exporter) :
    (collectTarget ps t e).e.options.Namespace = e.options.Namespace ∧
    (collectTarget ps t e).e.options.MetricsPath = e.options.MetricsPath ∧
    (collectTarget ps t e).e.options.ProbePath = e.options.ProbePath ∧
    (collectTarget ps t e).e.options.SSLTargets = e.options.SSLTargets ∧
    (collectTarget ps t e).e.options.SSLConfig = e.options.SSLConfig := by
  by_cases hC : (t.Module ≠ "" ∧ e.options.SSLConfig.DefaultModule = "")
  · simp [collectTarget, hC]
  · cases hL : e.options.SSLConfig.Modules.lookup t.Module with
    | none => simp [collectTarget, hC, hL]
    | some module =>
      cases hP : ps module.Prober with
      | none => simp [collectTarget, hC, hL, hP]
      | some pf => simp [collectTarget, hC, hL, hP]

/-- Frame lemma over a whole target list. -/
theorem collectTargets_frame (ps : Probers) (ts : List SSLTarget)
    (e : Exporter) :
    (collectTargets ps ts e).e.options.Namespace = e.options.Namespace ∧
    (collectTargets ps ts e).e.options.MetricsPath = e.options.MetricsPath ∧
    (collectTargets ps ts e).e.options.ProbePath = e.options.ProbePath ∧
    (collectTargets ps ts e).e.options.SSLTargets = e.options.SSLTargets ∧
    (collectTargets ps ts e).e.options.SSLConfig = e.options.SSLConfig := by
  induction ts generalizing e with
  | nil => exact ⟨rfl, rfl, rfl, rfl, rfl⟩
  | cons t ts ih =>
    have h1 := collectTarget_frame ps t e
    simp only [collectTargets]
    split
    · exact h1
    · have h2 := ih (collectTarget ps t e).e
      exact ⟨h2.1.trans h1.1, h2.2.1.trans h1.2.1, h2.2.2.1.trans h1.2.2.1,
        h2.2.2.2.1.trans h1.2.2.2.1, h2.2.2.2.2.trans h1.2.2.2.2⟩

/-- Full characterization of a successful remap of one raw metric. -/
theorem remapMetric_emitted_spec {famName : String} {m : RawMetric}
    {c : CanonMetric} (h : remapMetric famName m = .emitted c) :
    ∃ desc v, descs famName = some desc ∧ m.Gauge = some v ∧
      (goSortSlice m.Label).length = desc.variableLabels.length ∧
      c = ⟨desc.fqName, (goSortSlice m.Label).map (·.Value), v⟩ := by
  cases hd : descs famName with
  | none => simp [remapMetric, hd] at h
  | some desc =>
    cases hg : m.Gauge with
    | none => simp [remapMetric, hd, hg] at h
    | some v =>
      simp only [remapMetric, hd, hg, newConstMetric] at h
      split at h
      · simp at h
      · rename_i c' heq
        simp only [RemapResult.emitted.injEq] at h
        split at heq
        · rename_i hlen
          injection heq with heq2
          refine ⟨desc, v, rfl, rfl, by simpa using hlen, ?_⟩
          rw [← h, ← heq2]
        · exact absurd heq (by simp)

theorem lookup_mem {k : String} {d : Desc} {l : List (String × Desc)}
    (h : l.lookup k = some d) : (k, d) ∈ l := by
  induction l with
  | nil => simp [List.lookup] at h
  | cons p l ih =>
    cases p with
    | mk k2 d2 =>
      simp only [List.lookup] at h
      split at h
      · rename_i hbeq
        injection h with h
        subst h
        have hk : k = k2 := by simpa using hbeq
        simp [hk]
      · simp [ih h]

/-- The only `descs` keys whose descriptor is named like one of the two
collector-level gauges are the corresponding gauge keys themselves. -/
theorem descs_fqName_builtin {k : String} {d : Desc} (h : descs k = some d) :
    (d.fqName = "ssl_probe_success" → k = "ssl_exporter_probe_success") ∧
    (d.fqName = "ssl_prober" → k = "ssl_exporter_prober") := by
  have hm : (k, d) ∈ descList := lookup_mem h
  have hall : ∀ p ∈ descList,
      (p.2.fqName = "ssl_probe_success" → p.1 = "ssl_exporter_probe_success") ∧
      (p.2.fqName = "ssl_prober" → p.1 = "ssl_exporter_prober") := by decide
  exact hall (k, d) hm

/-- Every canonical metric emitted for one family is named by that
family's descriptor. -/
theorem remapMetrics_emitted_descName (n : String) (ms : List RawMetric) :
    ∀ c ∈ (remapMetrics n ms).1,
      ∃ d, descs n = some d ∧ c.descName = d.fqName := by
  induction ms with
  | nil => simp [remapMetrics]
  | cons m ms ih =>
    intro c hc
    cases hr : remapMetric n m with
    | panicked => simp [remapMetrics, hr] at hc
    | skipped d =>
      simp only [remapMetrics, hr] at hc
      exact ih c hc
    | emitted c2 =>
      simp only [remapMetrics, hr, List.mem_cons] at hc
      rcases hc with hc | hc
      · subst hc
        obtain ⟨desc, v, hd, _, _, hceq⟩ := remapMetric_emitted_spec hr
        exact ⟨desc, hd, by rw [hceq]⟩
      · exact ih c hc

/-- A family not named like either collector-level gauge key never emits
a canonical metric named like either gauge descriptor. -/
theorem remapMetrics_no_builtin (f : RawFamily)
    (h1 : f.Name ≠ "ssl_exporter_probe_success")
    (h2 : f.Name ≠ "ssl_exporter_prober") :
    ∀ c ∈ (remapMetrics f.Name f.Metric).1,
      c.descName ≠ "ssl_probe_success" ∧ c.descName ≠ "ssl_prober" := by
  intro c hc
  obtain ⟨d, hd, hcn⟩ := remapMetrics_emitted_descName f.Name f.Metric c hc
  have hb := descs_fqName_builtin hd
  constructor
  · intro hps
    rw [hcn] at hps
    exact h1 (hb.1 hps)
  · intro hps
    rw [hcn] at hps
    exact h2 (hb.2 hps)

theorem remapFamilies_no_builtin (fs : List RawFamily)
    (hf : ∀ f ∈ fs, f.Name ≠ "ssl_exporter_probe_success" ∧
      f.Name ≠ "ssl_exporter_prober") :
    ∀ c ∈ (remapFamilies fs).1,
      c.descName ≠ "ssl_probe_success" ∧ c.descName ≠ "ssl_prober" := by
  induction fs with
  | nil => simp [remapFamilies]
  | cons f fs ih =>
    intro c hc
    have hhd := hf f (by simp)
    simp only [remapFamilies] at hc
    split at hc
    · exact remapMetrics_no_builtin f hhd.1 hhd.2 c hc
    · simp only [List.mem_append] at hc
      rcases hc with hc | hc
      · exact remapMetrics_no_builtin f hhd.1 hhd.2 c hc
      · exact ih (fun g hg => hf g (by simp [hg])) c hc

/-- Recognizer of prober-error diagnostics. -/
def isProberErrorB : Diag → Bool
  | .proberError _ => true
  | _ => false

theorem remapMetric_skipped_diag {n : String} {m : RawMetric} {d : Diag}
    (h : remapMetric n m = .skipped d) : isProberErrorB d = false := by
  cases hd : descs n with
  | none =>
    simp only [remapMetric, hd, RemapResult.skipped.injEq] at h
    rw [← h]
    rfl
  | some desc =>
    cases hg : m.Gauge with
    | none => simp [remapMetric, hd, hg] at h
    | some v =>
      simp only [remapMetric, hd, hg, newConstMetric] at h
      split at h
      · rename_i c' heq
        simp only [RemapResult.skipped.injEq] at h
        rw [← h]
        rfl
      · simp at h

theorem remapMetrics_diags_not_proberError (n : String) (ms : List RawMetric) :
    ∀ d ∈ (remapMetrics n ms).2.1, isProberErrorB d = false := by
  induction ms with
  | nil => simp [remapMetrics]
  | cons m ms ih =>
    intro d hd
    cases hr : remapMetric n m with
    | panicked => simp [remapMetrics, hr] at hd
    | skipped d2 =>
      simp only [remapMetrics, hr, List.mem_cons] at hd
      rcases hd with hd | hd
      · subst hd
        exact remapMetric_skipped_diag hr
      · exact ih d hd
    | emitted c =>
      simp only [remapMetrics, hr] at hd
      exact ih d hd

theorem remapFamilies_diags_not_proberError (fs : List RawFamily) :
    ∀ d ∈ (remapFamilies fs).2.1, isProberErrorB d = false := by
  induction fs with
  | nil => simp [remapFamilies]
  | cons f fs ih =>
    intro d hd
    simp only [remapFamilies] at hd
    split at hd
    · exact remapMetrics_diags_not_proberError f.Name f.Metric d hd
    · simp only [List.mem_append] at hd
      rcases hd with hd | hd
      · exact remapMetrics_diags_not_proberError f.Name f.Metric d hd
      · exact ih d hd

/-- A raw metric that IS a gauge can never panic the per-metric loop
(only the nil `Gauge` dereference panics). -/
theorem remapMetric_no_panic {n : String} {m : RawMetric}
    (h : m.Gauge.isSome) : remapMetric n m ≠ .panicked := by
  cases hd : descs n with
  | none => simp [remapMetric, hd]
  | some desc =>
    cases hg : m.Gauge with
    | none => rw [hg] at h; simp at h
    | some v =>
      simp only [remapMetric, hd, hg, newConstMetric]
      split <;> simp

theorem remapMetrics_no_panic (n : String) (ms : List RawMetric)
    (h : ∀ m ∈ ms, m.Gauge.isSome) : (remapMetrics n ms).2.2 = false := by
  induction ms with
  | nil => rfl
  | cons m ms ih =>
    cases hr : remapMetric n m with
    | panicked => exact absurd hr (remapMetric_no_panic (h m (by simp)))
    | skipped d => simp [remapMetrics, hr, ih (fun x hx => h x (by simp [hx]))]
    | emitted c => simp [remapMetrics, hr, ih (fun x hx => h x (by simp [hx]))]

/-- A family list of gauge-only metrics never panics the remap loop. -/
theorem remapFamilies_no_panic (fs : List RawFamily)
    (h : ∀ f ∈ fs, ∀ m ∈ f.Metric, m.Gauge.isSome) :
    (remapFamilies fs).2.2 = false := by
  induction fs with
  | nil => rfl
  | cons f fs ih =>
    have hf : (remapMetrics f.Name f.Metric).2.2 = false :=
      remapMetrics_no_panic f.Name f.Metric (h f (by simp))
    simp [remapFamilies, hf, ih (fun g hg => h g (by simp [hg]))]

/-! ### Claims C8, C1, C3 -/

/-- A strategy stub that registers nothing and succeeds. -/
def stubEmpty : ProberFn := fun _ _ => (none, [])

/-- A strategy stub that fails with a connection error. -/
def stubErr : ProberFn := fun _ _ => (some "connection refused", [])

/-- A prober table resolving `tcp` to the failing stub. -/
def errProbers : Probers :=
  fun s => if s = "tcp" then some stubErr else none

/-- Options resolving one `tcp` target (used by several witnesses). -/
def errOpts : Options :=
  ⟨"ssl_exporter", "/metrics", "/probe", ⟨0, []⟩,
   [⟨"example.com:443", "tcp"⟩], ⟨"tcp", [("tcp", ⟨"tcp"⟩)]⟩⟩

/-- C8: for every target whose module and prober resolve, the
probe-success gauge is set to 0 exactly when the prober function returns
an error and to 1 otherwise; the prober's error appears in the log (and
is the only prober-error diagnostic of the target); and, absent a panic,
the remaining targets of the same `Collect` call are still processed,
their output appended after this target's. -/
theorem c8_probe_error_theorem (ps : Probers) (t : SSLTarget)
    (ts : List SSLTarget) (e : Exporter) (module : Module) (pf : ProberFn)
    (hC : ¬(t.Module ≠ "" ∧ e.options.SSLConfig.DefaultModule = ""))
    (hL : e.options.SSLConfig.Modules.lookup t.Module = some module)
    (hP : ps module.Prober = some pf) :
    ((collectTarget ps t e).e.probeSuccessVal =
      if (pf t.Target module).1.isSome then 0 else 1) ∧
    ((collectTarget ps t e).diags.filter isProberErrorB =
      (match (pf t.Target module).1 with
       | some msg => [Diag.proberError msg]
       | none => [])) ∧
    ((collectTarget ps t e).panicked = false →
      (collectTargets ps (t :: ts) e).emitted =
        (collectTarget ps t e).emitted ++
        (collectTargets ps ts (collectTarget ps t e).e).emitted) := by
  refine ⟨?_, ?_, ?_⟩
  · rw [collectTarget_resolved_e ps t e module pf hC hL hP]
  · rw [collectTarget_resolved_diags ps t e module pf hC hL hP,
      List.filter_append]
    have h2 : (remapFamilies (gatheredOf e module pf t)).2.1.filter
        isProberErrorB = [] := by
      rw [List.filter_eq_nil_iff]
      intro d hd
      simp [remapFamilies_diags_not_proberError _ d hd]
    rw [h2, List.append_nil]
    cases hpr : (pf t.Target module).1 with
    | some msg => rfl
    | none => rfl
  · intro hnp
    simp [collectTargets, hnp]

/-- Witness for C8: a resolvable target whose prober fails sets the gauge
to 0 and logs exactly the prober's error. -/
theorem c8_probe_error_witness :
    (collectTarget errProbers ⟨"example.com:443", "tcp"⟩
      (NewSSLExporter errOpts)).e.probeSuccessVal = 0 ∧
    (collectTarget errProbers ⟨"example.com:443", "tcp"⟩
      (NewSSLExporter errOpts)).diags.filter isProberErrorB =
      [Diag.proberError "connection refused"] := by
  have h := c8_probe_error_theorem errProbers ⟨"example.com:443", "tcp"⟩ []
    (NewSSLExporter errOpts) ⟨"tcp"⟩ stubErr (by decide) rfl rfl
  exact ⟨h.1.trans (by rfl), h.2.1.trans (by rfl)⟩

/-- C1 counterexample: a configured target whose module does not resolve
is skipped with no output at all: no probe-success metric and no
prober-identity metric is emitted for it, refuting "always emitted, even
when the probing strategy is unresolvable". -/
def unknownModuleOpts : Options :=
  ⟨"ssl_exporter", "/metrics", "/probe", ⟨0, []⟩,
   [⟨"example.com:443", "nope"⟩], ⟨"tcp", [("tcp", ⟨"tcp"⟩)]⟩⟩

theorem c1_always_emitted_counterexample :
    unknownModuleOpts.SSLTargets.length = 1 ∧
    (Collect tcpProbers (NewSSLExporter unknownModuleOpts)).emitted = [] ∧
    (Collect tcpProbers (NewSSLExporter unknownModuleOpts)).diags =
      [.unknownModule "nope"] := by
  refine ⟨by decide, by decide, by decide⟩

/-- C1 amended: for every target whose module and prober resolve, whose
probing strategy registers only gauge metrics (a non-gauge metric under a
registry-known name panics the scrape before or instead of the
collector-level families — see C7 — since `Registry.Gather` returns the
families sorted by name) and does not impersonate the collector-level
gauge families, the processing of that target does not panic, and —
provided the registry gather succeeds; its error path (source lines
227-231) skips the target's whole output and is not represented in this
model — the output attributed to the target contains exactly one
probe-success metric, whose value signals the outcome, and, up to the
output order, one prober-identity metric per gauge-vector child
accumulated so far, at least the current target's prober.  A target
failing resolution emits nothing at all.

Under the gauge-only hypothesis no family can panic, so every gathered
family is fully remapped whatever order `Gather` returns them in; the
conclusions below (a panic-free run, a singleton filter, a permutation,
a membership) are insensitive to that order, which is why they transfer
to the program despite the model fixing a registration order. -/
theorem c1_per_target_emission_theorem :
    (∀ (ps : Probers) (t : SSLTarget) (e : Exporter) (module : Module)
       (pf : ProberFn),
      e.options.Namespace = "ssl_exporter" →
      ¬(t.Module ≠ "" ∧ e.options.SSLConfig.DefaultModule = "") →
      e.options.SSLConfig.Modules.lookup t.Module = some module →
      ps module.Prober = some pf →
      (∀ f ∈ (pf t.Target module).2,
        f.Name ≠ "ssl_exporter_probe_success" ∧
        f.Name ≠ "ssl_exporter_prober") →
      (∀ f ∈ (pf t.Target module).2, ∀ m ∈ f.Metric, m.Gauge.isSome) →
      (collectTarget ps t e).panicked = false ∧
      (collectTarget ps t e).emitted.filter
          (fun c => c.descName = "ssl_probe_success") =
        [probeSuccessMetric (if (pf t.Target module).1.isSome then 0 else 1)] ∧
      ((collectTarget ps t e).emitted.filter
          (fun c => c.descName = "ssl_prober")).Perm
        ((addChild e.proberChildren module.Prober).map proberMetric) ∧
      module.Prober ∈ addChild e.proberChildren module.Prober) ∧
    (∀ (ps : Probers) (t : SSLTarget) (e : Exporter),
      resolves e.options.SSLConfig ps t = false →
      (collectTarget ps t e).emitted = []) := by
  constructor
  · intro ps t e module pf hns hC hL hP hf hg
    have hsp := collectTarget_resolved_spec ps t e module pf hns hC hL hP
    have hmapPS : ((addChild e.proberChildren module.Prober).map
        proberMetric).filter (fun c => c.descName = "ssl_probe_success") = [] := by
      rw [List.filter_eq_nil_iff]
      intro c hc
      obtain ⟨p, _, rfl⟩ := List.mem_map.mp hc
      simp [proberMetric]
    have hmapPR : ((addChild e.proberChildren module.Prober).map
        proberMetric).filter (fun c => c.descName = "ssl_prober") =
        (addChild e.proberChildren module.Prober).map proberMetric := by
      rw [List.filter_eq_self]
      intro c hc
      obtain ⟨p, _, rfl⟩ := List.mem_map.mp hc
      simp [proberMetric]
    have hstubPS : ((remapFamilies (pf t.Target module).2).1).filter
        (fun c => c.descName = "ssl_probe_success") = [] := by
      rw [List.filter_eq_nil_iff]
      intro c hc
      simp [(remapFamilies_no_builtin _ hf c hc).1]
    have hstubPR : ((remapFamilies (pf t.Target module).2).1).filter
        (fun c => c.descName = "ssl_prober") = [] := by
      rw [List.filter_eq_nil_iff]
      intro c hc
      simp [(remapFamilies_no_builtin _ hf c hc).2]
    refine ⟨?_, ?_, ?_, addChild_mem_self _ _⟩
    · rw [hsp]
      exact remapFamilies_no_panic _ hg
    · rw [hsp]
      simp [List.filter_append, hmapPS, hstubPS, probeSuccessMetric]
    · have heq : (collectTarget ps t e).emitted.filter
          (fun c => c.descName = "ssl_prober") =
          (addChild e.proberChildren module.Prober).map proberMetric := by
        rw [hsp]
        simp [List.filter_append, hmapPR, hstubPR, probeSuccessMetric,
          proberMetric]
      rw [heq]
  · intro ps t e h
    exact (collectTarget_unresolved ps t e h).2.1

/-- Witness for the C1 amended theorem: the resolvable `tcp` target with
a gauge-only (here empty) strategy output panics nowhere, emits exactly
one probe-success metric and, up to order, exactly one prober-identity
metric, and the unresolvable target emits none. -/
theorem c1_per_target_emission_witness :
    (collectTarget tcpProbers ⟨"example.com:443", "tcp"⟩
        (NewSSLExporter errOpts)).panicked = false ∧
    (collectTarget tcpProbers ⟨"example.com:443", "tcp"⟩
        (NewSSLExporter errOpts)).emitted.filter
        (fun c => c.descName = "ssl_probe_success") =
      [probeSuccessMetric 1] ∧
    ((collectTarget tcpProbers ⟨"example.com:443", "tcp"⟩
        (NewSSLExporter errOpts)).emitted.filter
        (fun c => c.descName = "ssl_prober")).Perm [proberMetric "tcp"] ∧
    (collectTarget tcpProbers ⟨"example.com:443", "bad"⟩
        (NewSSLExporter errOpts)).emitted = [] := by
  have h1 := c1_per_target_emission_theorem.1 tcpProbers
    ⟨"example.com:443", "tcp"⟩ (NewSSLExporter errOpts) ⟨"tcp"⟩ stubEmpty
    rfl (by decide) rfl rfl (by simp [stubEmpty]) (by simp [stubEmpty])
  have h2 := c1_per_target_emission_theorem.2 tcpProbers
    ⟨"example.com:443", "bad"⟩ (NewSSLExporter errOpts) (by decide)
  exact ⟨h1.1, h1.2.1.trans (by rfl), h1.2.2.1, h2⟩

/-- C3 counterexample: the prober-identity gauge vector is shared across
targets, so the child created while processing target A (module `m1`,
prober `p1`) yields a canonical metric in the output attributed to
target B (module `m2`, prober `p2`), inside one `Collect` call: the
full call emits `proberMetric "p1"` twice although only one target uses
prober `p1`. -/
def twoProberOpts : Options :=
  ⟨"ssl_exporter", "/metrics", "/probe", ⟨0, []⟩,
   [⟨"a", "m1"⟩, ⟨"b", "m2"⟩],
   ⟨"m1", [("m1", ⟨"p1"⟩), ("m2", ⟨"p2"⟩)]⟩⟩

def twoProbers : Probers :=
  fun s => if s = "p1" ∨ s = "p2" then some stubEmpty else none

theorem c3_isolation_counterexample :
    (NewSSLExporter twoProberOpts).proberChildren = [] ∧
    (collectTarget twoProbers ⟨"a", "m1"⟩
      (NewSSLExporter twoProberOpts)).e.proberChildren = ["p1"] ∧
    proberMetric "p1" ∈
      (collectTarget twoProbers ⟨"b", "m2"⟩
        (collectTarget twoProbers ⟨"a", "m1"⟩
          (NewSSLExporter twoProberOpts)).e).emitted ∧
    (Collect twoProbers (NewSSLExporter twoProberOpts)).emitted.count
      (proberMetric "p1") = 2 := by
  refine ⟨by decide, by decide, by decide, by decide⟩

/-- C3 amended: metrics registered by a probing strategy while processing
target A never appear in the output attributed to target B — B's whole
result depends only on B's own probe invocation (the per-target fresh
sub-registry), as witnessed by invariance under replacing every other
strategy behaviour; the prober-identity gauge children are the exception,
being accumulated in a vector shared across targets. -/
theorem c3_subregistry_isolation_theorem (ps ps2 : Probers)
    (t : SSLTarget) (e : Exporter) (module : Module) (pf pf2 : ProberFn)
    (hC : ¬(t.Module ≠ "" ∧ e.options.SSLConfig.DefaultModule = ""))
    (hL : e.options.SSLConfig.Modules.lookup t.Module = some module)
    (hP : ps module.Prober = some pf)
    (hP2 : ps2 module.Prober = some pf2)
    (hpf : pf t.Target module = pf2 t.Target module) :
    collectTarget ps t e = collectTarget ps2 t e := by
  rw [collectTarget_resolved ps t e module pf hC hL hP,
    collectTarget_resolved ps2 t e module pf2 hC hL hP2, hpf]

/-- Witness for the C3 amended theorem: replacing the entire prober table
(and so anything any other target's strategy would register) leaves
target B's result unchanged. -/
theorem c3_subregistry_isolation_witness :
    collectTarget twoProbers ⟨"b", "m2"⟩ (NewSSLExporter twoProberOpts) =
      collectTarget (fun s => if s = "p2" then some stubEmpty else none)
        ⟨"b", "m2"⟩ (NewSSLExporter twoProberOpts) :=
  c3_subregistry_isolation_theorem twoProbers
    (fun s => if s = "p2" then some stubEmpty else none)
    ⟨"b", "m2"⟩ (NewSSLExporter twoProberOpts) ⟨"p2"⟩ stubEmpty stubEmpty
    (by decide) rfl rfl rfl rfl

/-! ### Claim C10: the Registry field of Options -/

/-- How many targets pass all three resolution steps. -/
def resolvedCount (cfg : SSLConfig) (ps : Probers)
    (ts : List SSLTarget) : Nat :=
  (ts.filter (fun t => resolves cfg ps t)).length

theorem resolves_eq_true {cfg : SSLConfig} {ps : Probers} {t : SSLTarget}
    (h : resolves cfg ps t = true) :
    ¬(t.Module ≠ "" ∧ cfg.DefaultModule = "") ∧
    ∃ module pf, cfg.Modules.lookup t.Module = some module ∧
      ps module.Prober = some pf := by
  by_cases hC : (t.Module ≠ "" ∧ cfg.DefaultModule = "")
  · simp [resolves, hC] at h
  · refine ⟨hC, ?_⟩
    cases hL : cfg.Modules.lookup t.Module with
    | none => simp [resolves, hC, hL] at h
    | some module =>
      cases hP : ps module.Prober with
      | none => simp [resolves, hC, hL, hP] at h
      | some pf => exact ⟨module, pf, rfl, hP⟩

/-- A skipped target in the exact record form. -/
theorem collectTarget_unresolved_eq (ps : Probers) (t : SSLTarget)
    (e : Exporter) (h : resolves e.options.SSLConfig ps t = false) :
    ∃ d, collectTarget ps t e = ⟨e, [], [d], false⟩ := by
  by_cases hC : (t.Module ≠ "" ∧ e.options.SSLConfig.DefaultModule = "")
  · exact ⟨.missingModule, by simp [collectTarget, hC]⟩
  · cases hL : e.options.SSLConfig.Modules.lookup t.Module with
    | none => exact ⟨.unknownModule t.Module, by simp [collectTarget, hC, hL]⟩
    | some module =>
      cases hP : ps module.Prober with
      | none =>
        exact ⟨.unknownProber module.Prober, by simp [collectTarget, hC, hL, hP]⟩
      | some pf => simp [resolves, hC, hL, hP] at h

/-- Registry-stamp bookkeeping over a panic-free run: the allocation
counter advances once per resolved target, and `options.Registry` holds
the stamp allocated at the LAST resolved target (the caller's registry
survives only when no target resolves). -/
theorem collectTargets_stamps (ps : Probers) (ts : List SSLTarget) :
    ∀ e : Exporter, (collectTargets ps ts e).panicked = false →
    (collectTargets ps ts e).e.nextStamp =
      e.nextStamp + resolvedCount e.options.SSLConfig ps ts ∧
    (collectTargets ps ts e).e.options.Registry.stamp =
      (if resolvedCount e.options.SSLConfig ps ts = 0
       then e.options.Registry.stamp
       else e.nextStamp + resolvedCount e.options.SSLConfig ps ts - 1) := by
  induction ts with
  | nil =>
    intro e _
    simp [collectTargets, resolvedCount]
  | cons t ts ih =>
    intro e hnp
    cases hres : resolves e.options.SSLConfig ps t with
    | false =>
      obtain ⟨d, hd⟩ := collectTarget_unresolved_eq ps t e hres
      simp only [collectTargets, hd] at hnp ⊢
      have hcnt : resolvedCount e.options.SSLConfig ps (t :: ts) =
          resolvedCount e.options.SSLConfig ps ts := by
        simp [resolvedCount, hres]
      rw [hcnt]
      simp only [Bool.false_eq_true, if_false] at hnp ⊢
      exact ih e hnp
    | true =>
      obtain ⟨hC, module, pf, hL, hP⟩ := resolves_eq_true hres
      have he := collectTarget_resolved_e ps t e module pf hC hL hP
      cases hpan : (collectTarget ps t e).panicked with
      | true => simp [collectTargets, hpan] at hnp
      | false =>
        simp only [collectTargets, hpan] at hnp ⊢
        simp only [Bool.false_eq_true, if_false] at hnp ⊢
        have hcfg : (collectTarget ps t e).e.options.SSLConfig =
            e.options.SSLConfig := by rw [he]
        have hih := ih (collectTarget ps t e).e hnp
        rw [hcfg] at hih
        have hcnt : resolvedCount e.options.SSLConfig ps (t :: ts) =
            resolvedCount e.options.SSLConfig ps ts + 1 := by
          simp [resolvedCount, hres]
        have hns : (collectTarget ps t e).e.nextStamp = e.nextStamp + 1 := by
          rw [he]
        have hrs : (collectTarget ps t e).e.options.Registry.stamp =
            e.nextStamp := by rw [he]
        rw [hcnt]
        constructor
        · rw [hih.1, hns]
          omega
        · rw [hih.2, hns, hrs]
          by_cases hz : resolvedCount e.options.SSLConfig ps ts = 0
          · simp [hz]
          · rw [if_neg hz, if_neg (by omega)]
            omega

/-- C10: `Collect` overwrites `options.Registry` with a fresh registry at
every resolved target; after a panic-free call with at least one resolved
target, `options.Registry` holds the registry allocated for the LAST
resolved target (the stamp `nextStamp + resolvedCount - 1`), which is
never the caller-supplied registry; no other field of `options` is
modified. -/
theorem c10_registry_overwrite_theorem (ps : Probers) (e : Exporter)
    (hwf : e.options.Registry.stamp < e.nextStamp)
    (hnp : (Collect ps e).panicked = false)
    (hres : 0 < resolvedCount e.options.SSLConfig ps e.options.SSLTargets) :
    (Collect ps e).e.options.Registry.stamp =
      e.nextStamp +
        resolvedCount e.options.SSLConfig ps e.options.SSLTargets - 1 ∧
    (Collect ps e).e.options.Registry.stamp ≠ e.options.Registry.stamp ∧
    (Collect ps e).e.nextStamp =
      e.nextStamp + resolvedCount e.options.SSLConfig ps e.options.SSLTargets ∧
    (Collect ps e).e.options.Namespace = e.options.Namespace ∧
    (Collect ps e).e.options.MetricsPath = e.options.MetricsPath ∧
    (Collect ps e).e.options.ProbePath = e.options.ProbePath ∧
    (Collect ps e).e.options.SSLTargets = e.options.SSLTargets ∧
    (Collect ps e).e.options.SSLConfig = e.options.SSLConfig := by
  have hs := collectTargets_stamps ps e.options.SSLTargets e hnp
  have hf := collectTargets_frame ps e.options.SSLTargets e
  have hreg : (Collect ps e).e.options.Registry.stamp =
      e.nextStamp +
        resolvedCount e.options.SSLConfig ps e.options.SSLTargets - 1 := by
    have := hs.2
    rw [if_neg (by omega)] at this
    exact this
  exact ⟨hreg, by rw [hreg]; omega, hs.1, hf.1, hf.2.1, hf.2.2.1,
    hf.2.2.2.1, hf.2.2.2.2⟩

/-- Witness for C10 at the two-target, two-prober configuration: the
caller's registry (stamp 0) is discarded; after `Collect` the field holds
the second target's sub-registry (stamp 2) and the other option fields
are untouched. -/
theorem c10_registry_overwrite_witness :
    (Collect twoProbers (NewSSLExporter twoProberOpts)).e.options.Registry.stamp = 2 ∧
    (Collect twoProbers (NewSSLExporter twoProberOpts)).e.options.Registry.stamp ≠ 0 ∧
    (Collect twoProbers (NewSSLExporter twoProberOpts)).e.options.SSLTargets =
      twoProberOpts.SSLTargets := by
  have h := c10_registry_overwrite_theorem twoProbers
    (NewSSLExporter twoProberOpts) (by decide) (by decide) (by decide)
  exact ⟨h.1.trans (by decide), h.2.1, h.2.2.2.2.2.2.1⟩

/-! ### Claim C6: idempotence of `Collect` -/

end SSLExporter
